import Mathlib

/-!
Shallow embedding of the elevate-romania pipeline (src/filter.py, src/enrich.py,
src/validate.py, src/upload.py, src/main.py) and proofs about its claims.

Modelling conventions:
* Python dicts of string tags are association lists with unique keys in
  insertion order; `dictGet`/`dictSet`/`dictHas` mirror `d[k]`, `d[k] = v`
  and `k in d`.
* Python floats are idealised as rationals (`ℚ`); `round(x, 1)` becomes
  round-half-to-even at one decimal and `str` of such a number is rendered
  with exactly one decimal digit.
* Network calls (elevation lookup, the osmapi client) are oracles passed in
  as explicit function arguments; a raising call is an `Except.error`.
* An OSM element is the structure below; `type` is always present (every
  Overpass element carries it and the code indexes `element["type"]`
  unconditionally), while `id`, coordinates, `tags` and the enricher-written
  `elevation_fetched` field may be absent (`Option`).
-/

/-- The `center` sub-dict of a way element: `element["center"].get("lat"/"lon")`. -/
structure Center where
  lat : Option ℚ
  lon : Option ℚ
  deriving DecidableEq, Repr

/-- One OSM element as the pipeline sees it (a JSON object from Overpass). -/
structure Element where
  type : String
  id : Option Int
  lat : Option ℚ
  lon : Option ℚ
  center : Option Center
  tags : Option (List (String × String))
  elevation_fetched : Option ℚ
  deriving DecidableEq, Repr

/-- Python `d.get(k)` / `d[k]` on a string-keyed dict (first matching key). -/
def dictGet (k : String) : List (String × String) → Option String
  | [] => none
  | (k₀, v₀) :: rest => if k₀ = k then some v₀ else dictGet k rest

/-- Python `k in d` on a string-keyed dict. -/
def dictHas (k : String) (d : List (String × String)) : Bool :=
  (dictGet k d).isSome

/-- Python `d[k] = v`: replace the value in place if the key exists, else append. -/
def dictSet (k v : String) : List (String × String) → List (String × String)
  | [] => [(k, v)]
  | (k₀, v₀) :: rest => if k₀ = k then (k, v) :: rest else (k₀, v₀) :: dictSet k v rest

/-! ## src/filter.py — `ElevationFilter` -/

/-- Embeds `ElevationFilter.has_elevation`: element has a `tags` dict containing `ele`. -/
def has_elevation (e : Element) : Bool :=
  match e.tags with
  | some ts => dictHas "ele" ts
  | none => false

/-- Embeds `ElevationFilter.is_alpine_hut`: `tags.get("tourism") == "alpine_hut"`. -/
def is_alpine_hut (e : Element) : Bool :=
  match e.tags with
  | some ts => dictGet "tourism" ts = some "alpine_hut"
  | none => false

/-- Embeds `ElevationFilter.get_coordinates`: a node's own lat/lon, a way's center
lat/lon, and `(None, None)` otherwise (also for a way with no center). -/
def get_coordinates (e : Element) : Option ℚ × Option ℚ :=
  if e.type = "node" then (e.lat, e.lon)
  else if e.type = "way" then
    match e.center with
    | some c => (c.lat, c.lon)
    | none => (none, none)
  else (none, none)

/-- Embeds `ElevationFilter.filter_missing_elevation`: keep elements without an `ele`
tag whose coordinates both resolve. -/
def filter_missing_elevation : List Element → List Element
  | [] => []
  | e :: rest =>
    if !has_elevation e then
      let lalo := get_coordinates e
      if lalo.1.isSome && lalo.2.isSome then e :: filter_missing_elevation rest
      else filter_missing_elevation rest
    else filter_missing_elevation rest

/-- Embeds `ElevationFilter.prioritize_alpine_huts`: split into alpine huts and the
rest, keeping input order in each output. -/
def prioritize_alpine_huts : List Element → List Element × List Element
  | [] => ([], [])
  | e :: rest =>
    let p := prioritize_alpine_huts rest
    if is_alpine_hut e then (e :: p.1, p.2) else (p.1, e :: p.2)

/-! ## src/enrich.py — `ElevationEnricher`

The elevation provider (`get_elevation`, an HTTP call) is an oracle
`lookup : ℚ → ℚ → Option ℚ`; `none` covers both a transport error and a
backend-reported failure, exactly the two cases `get_elevation` folds into
`None`.  The `time.sleep(rate_limit)` call has no data effect and is not
modelled. -/

/-- Python `round(x*10)` half-to-even, on the rational idealisation of floats. -/
def roundHalfEven (q : ℚ) : ℤ :=
  let f := ⌊q⌋
  let frac := q - f
  if frac < 1/2 then f
  else if 1/2 < frac then f + 1
  else if f % 2 = 0 then f else f + 1

/-- Python `str(round(elevation, 1))`: round to one decimal, render with one decimal
digit (e.g. `850.3`, `-12.5`, `0.0`). -/
def eleStr (v : ℚ) : String :=
  let n := roundHalfEven (v * 10)
  (if n < 0 then "-" else "") ++ toString (n.natAbs / 10) ++ "." ++ toString (n.natAbs % 10)

/-- The coordinate resolution inlined at the top of
`ElevationEnricher.enrich_element`: a node's own lat/lon, a way's center
lat/lon, `none` otherwise, and `none` again if either coordinate is `None`. -/
def enrich_coords (e : Element) : Option (ℚ × ℚ) :=
  if e.type = "node" then
    match e.lat, e.lon with
    | some la, some lo => some (la, lo)
    | _, _ => none
  else if e.type = "way" && e.center.isSome then
    match e.center with
    | some c =>
      match c.lat, c.lon with
      | some la, some lo => some (la, lo)
      | _, _ => none
    | none => none
  else none

/-- Embeds `ElevationEnricher.enrich_element`, instrumented with the list of lookup
calls it issues.  On a resolved coordinate it calls the provider once; on
success it writes `tags.ele`, `tags.ele:source` and `elevation_fetched` (to a
fresh empty tags dict when the element had none); on failure it returns the
element unchanged. -/
def enrich_element_run (lookup : ℚ → ℚ → Option ℚ) (e : Element) :
    Option Element × List (ℚ × ℚ) :=
  match enrich_coords e with
  | none => (none, [])
  | some lalo =>
    match lookup lalo.1 lalo.2 with
    | some elevation =>
      (some { e with
          tags := some (dictSet "ele:source" "SRTM"
            (dictSet "ele" (eleStr elevation) (e.tags.getD []))),
          elevation_fetched := some elevation }, [lalo])
    | none => (some e, [lalo])

/-- The element (or `None`) returned by `enrich_element`. -/
def enrich_element (lookup : ℚ → ℚ → Option ℚ) (e : Element) : Option Element :=
  (enrich_element_run lookup e).1

/-- The provider calls issued by one `enrich_element` run. -/
def enrich_calls (lookup : ℚ → ℚ → Option ℚ) (e : Element) : List (ℚ × ℚ) :=
  (enrich_element_run lookup e).2

/-- The `if max_count and count >= max_count: break` guard of
`enrich_elements` (Python: `0` and `None` are both falsy). -/
def break_cond (max_count : Option Int) (count : Int) : Bool :=
  match max_count with
  | none => false
  | some k => decide (k ≠ 0) && decide (k ≤ count)

/-- The `for element in elements` loop of `ElevationEnricher.enrich_elements`,
with the running `count` made explicit.  Only a non-`None` result is appended
and counted (a returned element always carries its non-empty dict, hence is
truthy). -/
def enrich_loop (lookup : ℚ → ℚ → Option ℚ) (max_count : Option Int) :
    List Element → Int → List Element
  | [], _ => []
  | e :: rest, count =>
    if break_cond max_count count then []
    else
      match enrich_element lookup e with
      | some r => r :: enrich_loop lookup max_count rest (count + 1)
      | none => enrich_loop lookup max_count rest count

/-- Embeds `ElevationEnricher.enrich_elements(elements, max_count)`. -/
def enrich_elements (lookup : ℚ → ℚ → Option ℚ) (elements : List Element)
    (max_count : Option Int) : List Element :=
  enrich_loop lookup max_count elements 0

/-! ## src/validate.py — `ElevationValidator` -/

/-- Python `str` of a number, on the rational idealisation. -/
def numStr (q : ℚ) : String := toString q

/-- The result dict built by `ElevationValidator.validate_element`. -/
structure ValidationResult where
  valid : Bool
  element_id : Option Int
  element_type : String
  elevation : Option ℚ
  errors : List String
  deriving DecidableEq, Repr

/-- Embeds `ElevationValidator.validate_element` with bounds
`(min_elevation, max_elevation)`: missing `elevation_fetched` is the single
error "No elevation data"; a value strictly below the minimum or strictly
above the maximum gets the corresponding single range error; otherwise the
element is valid. -/
def validate_element (min_elevation max_elevation : ℚ) (e : Element) :
    ValidationResult :=
  match e.elevation_fetched with
  | none => ⟨false, e.id, e.type, none, ["No elevation data"]⟩
  | some elevation =>
    if elevation < min_elevation then
      ⟨false, e.id, e.type, some elevation,
        ["Elevation " ++ numStr elevation ++ "m below minimum " ++
          numStr min_elevation ++ "m"]⟩
    else if max_elevation < elevation then
      ⟨false, e.id, e.type, some elevation,
        ["Elevation " ++ numStr elevation ++ "m above maximum " ++
          numStr max_elevation ++ "m"]⟩
    else ⟨true, e.id, e.type, some elevation, []⟩

/-- The `{valid, invalid}` dict returned by `validate_elements`. -/
structure ValidationSplit where
  valid : List Element
  invalid : List (Element × ValidationResult)
  deriving DecidableEq, Repr

/-- Embeds `ElevationValidator.validate_elements`: classify each element in order
(`validate_element` is pure, so naming its result once or recomputing it is
the same function). -/
def validate_elements (min_elevation max_elevation : ℚ) :
    List Element → ValidationSplit
  | [] => ⟨[], []⟩
  | e :: rest =>
    if (validate_element min_elevation max_elevation e).valid then
      ⟨e :: (validate_elements min_elevation max_elevation rest).valid,
        (validate_elements min_elevation max_elevation rest).invalid⟩
    else
      ⟨(validate_elements min_elevation max_elevation rest).valid,
        (e, validate_element min_elevation max_elevation e) ::
          (validate_elements min_elevation max_elevation rest).invalid⟩

/-! ## src/upload.py — `OSMUploader`

The osmapi client is an oracle record whose calls may raise
(`Except.error msg` is a raised exception whose `str` is `msg`); every call
the code makes is also recorded as a `StoreEvent` so that "no store
interaction" is a provable statement. -/

/-- The piece of an upstream OSM record the code touches: its `tag` dict,
possibly absent (`if "tag" not in osm_element`). -/
structure OsmRecord where
  tag : Option (List (String × String))
  deriving DecidableEq, Repr

/-- One call to the osmapi client. -/
inductive StoreEvent where
  | nodeGet (id : Int)
  | wayGet (id : Int)
  | changesetCreate
  | nodeUpdate (r : OsmRecord)
  | wayUpdate (r : OsmRecord)
  | changesetClose
  deriving DecidableEq, Repr

/-- The osmapi client interface used by `upload_element`. -/
structure OsmApi where
  nodeGet : Int → Except String OsmRecord
  wayGet : Int → Except String OsmRecord
  changesetCreate : List (String × String) → Except String Int
  nodeUpdate : OsmRecord → Except String Unit
  wayUpdate : OsmRecord → Except String Unit
  changesetClose : Unit → Except String Unit

/-- The `OSMUploader` state after a successful `__init__`. -/
structure OSMUploader where
  dry_run : Bool
  username : Option String
  password : Option String
  deriving DecidableEq, Repr

/-- Python truthiness of an optional string: `None` and `""` are falsy. -/
def falsyStr : Option String → Bool
  | none => true
  | some s => s = ""

/-- Python truthiness of an optional int: `None` and `0` are falsy. -/
def falsyId : Option Int → Bool
  | none => true
  | some n => n = 0

/-- Embeds `OSMUploader.__init__`: in live mode, missing (falsy) username or password
raises `ValueError` before anything else happens. -/
def mkOSMUploader (username password : Option String) (dry_run : Bool) :
    Except String OSMUploader :=
  if !dry_run then
    if falsyStr username || falsyStr password then
      Except.error "Username and password required for actual upload"
    else Except.ok ⟨dry_run, username, password⟩
  else Except.ok ⟨dry_run, username, password⟩

/-- The `try:` block of `upload_element` in live mode: fetch the element,
merge the two tags, open a changeset, update, close; any raising call is
caught and becomes `(False, "Error uploading: " + str(e))`. -/
def live_upload (api : OsmApi) (element_type : String) (element_id : Int)
    (ele_value : String) (changeset_comment : String) :
    (Bool × String) × List StoreEvent :=
  let got : Except String OsmRecord × List StoreEvent :=
    if element_type = "node" then (api.nodeGet element_id, [.nodeGet element_id])
    else (api.wayGet element_id, [.wayGet element_id])
  if element_type = "node" || element_type = "way" then
    match got.1 with
    | Except.error msg => ((false, "Error uploading: " ++ msg), got.2)
    | Except.ok osm =>
      let osm1 : OsmRecord :=
        { osm with tag := some (dictSet "ele:source" "SRTM"
            (dictSet "ele" ele_value (osm.tag.getD []))) }
      match api.changesetCreate
          [("comment", changeset_comment), ("created_by", "elevate-romania script")] with
      | Except.error msg =>
        ((false, "Error uploading: " ++ msg), got.2 ++ [.changesetCreate])
      | Except.ok _ =>
        let upd : Except String Unit × StoreEvent :=
          if element_type = "node" then (api.nodeUpdate osm1, .nodeUpdate osm1)
          else (api.wayUpdate osm1, .wayUpdate osm1)
        match upd.1 with
        | Except.error msg =>
          ((false, "Error uploading: " ++ msg), got.2 ++ [.changesetCreate, upd.2])
        | Except.ok _ =>
          match api.changesetClose () with
          | Except.error msg =>
            ((false, "Error uploading: " ++ msg),
              got.2 ++ [.changesetCreate, upd.2, .changesetClose])
          | Except.ok _ =>
            ((true, "Upload successful"),
              got.2 ++ [.changesetCreate, upd.2, .changesetClose])
  else ((false, "Unsupported element type: " ++ element_type), [])

/-- Embeds `OSMUploader.upload_element`: precondition checks (Python-falsy id or
type, then missing `ele` / `ele:source` tags) return failure with no store
call; dry-run mode returns success with no store call; live mode runs
`live_upload`. -/
def upload_element (u : OSMUploader) (api : OsmApi) (e : Element)
    (changeset_comment : String) : (Bool × String) × List StoreEvent :=
  let tags := e.tags.getD []
  if falsyId e.id || e.type = "" then ((false, "Missing element ID or type"), [])
  else if !dictHas "ele" tags || !dictHas "ele:source" tags then
    ((false, "Missing elevation data in tags"), [])
  else
    let ele_value := (dictGet "ele" tags).getD ""
    if u.dry_run then ((true, "Dry-run successful"), [])
    else live_upload api e.type (e.id.getD 0) ele_value changeset_comment

/-- The statistics dict built by `upload_elements`; an error entry carries
`element.get("id")` and the failure message. -/
structure UploadStats where
  total : Nat
  successful : Nat
  failed : Nat
  errors : List (Option Int × String)
  deriving DecidableEq, Repr

/-- The `for i, element in enumerate(elements)` loop of `upload_elements`,
threading the statistics accumulator. -/
def upload_loop (u : OSMUploader) (api : OsmApi) :
    List Element → UploadStats → UploadStats
  | [], stats => stats
  | e :: rest, stats =>
    let res := upload_element u api e "Add elevation data"
    if res.1.1 then
      upload_loop u api rest { stats with successful := stats.successful + 1 }
    else
      upload_loop u api rest
        { stats with failed := stats.failed + 1,
                     errors := stats.errors ++ [(e.id, res.1.2)] }

/-- Embeds `OSMUploader.upload_elements`: statistics over one category. -/
def upload_elements (u : OSMUploader) (api : OsmApi) (elements : List Element) :
    UploadStats :=
  upload_loop u api elements ⟨elements.length, 0, 0, []⟩

/-! ## src/main.py — the upload branch of `main()` (lines 297–305) -/

/-- The command-line arguments that reach the upload branch. -/
structure CliArgs where
  dry_run : Bool
  username : Option String
  password : Option String
  deriving DecidableEq, Repr

/-- What the orchestrator decides to do for `--upload`. -/
inductive UploadDecision where
  | configError
  | run (dry_run : Bool) (username password : Option String)
  deriving DecidableEq, Repr

/-- Embeds `main()` lines 298–305:
`dry_run = args.dry_run if args.dry_run else True`, then
`if not dry_run and not args.username:` print the configuration error and
return, else call `run_upload(dry_run, username, password)`. -/
def main_upload_decision (a : CliArgs) : UploadDecision :=
  let dry_run := if a.dry_run then a.dry_run else true
  if !dry_run && falsyStr a.username then UploadDecision.configError
  else UploadDecision.run dry_run a.username a.password

/-! ## Helper lemmas -/

theorem dictGet_dictSet_self (k v : String) (d : List (String × String)) :
    dictGet k (dictSet k v d) = some v := by
  induction d with
  | nil => simp [dictGet, dictSet]
  | cons kv rest ih =>
    by_cases h : kv.1 = k
    · simp [dictSet, dictGet, h]
    · simp [dictSet, dictGet, h, ih]

theorem dictGet_dictSet_of_ne (k₀ k v : String) (d : List (String × String))
    (h : k₀ ≠ k) : dictGet k (dictSet k₀ v d) = dictGet k d := by
  induction d with
  | nil => simp [dictGet, dictSet, h]
  | cons kv rest ih =>
    by_cases h₁ : kv.1 = k₀
    · simp [dictSet, dictGet, h₁, h]
    · by_cases h₂ : kv.1 = k <;> simp [dictSet, dictGet, h₁, h₂, ih, Ne.symm h]

theorem length_filter_split {α : Type} (p : α → Bool) (l : List α) :
    (l.filter p).length + (l.filter (fun a => !p a)).length = l.length := by
  induction l with
  | nil => rfl
  | cons a rest ih =>
    by_cases h : p a <;> simp [List.filter, h] <;> omega

/-- C6: `filter_missing_elevation` retains exactly the elements whose tags
carry no `ele` key (an absent tags dict carries none) and whose coordinate
resolves — a node's own lat/lon, or a way's center lat/lon; elements that
already have `tags.ele`, and elements without a resolvable coordinate, are
dropped. -/
theorem c6_filter_missing_elevation (es : List Element) :
    filter_missing_elevation es = es.filter (fun e =>
      (match e.tags with
        | some ts => (dictGet "ele" ts).isNone
        | none => true)
      && (if e.type = "node" then e.lat.isSome && e.lon.isSome
          else if e.type = "way" then
            (match e.center with
              | some c => c.lat.isSome && c.lon.isSome
              | none => false)
          else false)) := by
  induction es with
  | nil => rfl
  | cons e rest ih =>
    have hpred : (!has_elevation e
        && ((get_coordinates e).1.isSome && (get_coordinates e).2.isSome))
        = ((match e.tags with
            | some ts => (dictGet "ele" ts).isNone
            | none => true)
          && (if e.type = "node" then e.lat.isSome && e.lon.isSome
              else if e.type = "way" then
                (match e.center with
                  | some c => c.lat.isSome && c.lon.isSome
                  | none => false)
              else false)) := by
      unfold has_elevation get_coordinates dictHas
      by_cases h1 : e.type = "node"
      · cases e.tags <;> simp [h1, Option.isNone_iff_eq_none, Option.isSome_iff_ne_none]
      · by_cases h2 : e.type = "way"
        · cases e.tags <;> cases e.center <;>
            simp [h1, h2, Option.isNone_iff_eq_none, Option.isSome_iff_ne_none]
        · cases e.tags <;> simp [h1, h2, Option.isNone_iff_eq_none]
    show (if !has_elevation e then _ else _) = _
    rw [List.filter_cons, ← hpred]
    by_cases hh : has_elevation e
    · simp [hh, ih]
    · by_cases hc1 : (get_coordinates e).1.isSome <;>
        by_cases hc2 : (get_coordinates e).2.isSome <;>
        simp [hh, hc1, hc2, ih]

/-- C7: `prioritize_alpine_huts` is the stable partition of its input by the
predicate `tags.tourism == "alpine_hut"`: the first output is the sublist of
alpine huts in input order, the second the sublist of all other elements in
input order, and together they account for every input element exactly
once. -/
theorem c7_prioritize_partition (es : List Element) :
    prioritize_alpine_huts es
      = (es.filter (fun e => is_alpine_hut e), es.filter (fun e => !is_alpine_hut e))
    ∧ (prioritize_alpine_huts es).1.length + (prioritize_alpine_huts es).2.length
        = es.length := by
  refine ⟨?_, ?_⟩
  · induction es with
    | nil => rfl
    | cons e rest ih =>
      by_cases h : is_alpine_hut e <;>
        simp [prioritize_alpine_huts, List.filter_cons, h, ih]
  · induction es with
    | nil => rfl
    | cons e rest ih =>
      by_cases h : is_alpine_hut e <;>
        simp [prioritize_alpine_huts, h] <;> omega

theorem mem_valid_of_validate (min_elevation max_elevation : ℚ) :
    ∀ (es : List Element) (e : Element),
      e ∈ (validate_elements min_elevation max_elevation es).valid →
      (validate_element min_elevation max_elevation e).valid = true := by
  intro es
  induction es with
  | nil => intro e he; simp [validate_elements] at he
  | cons a rest ih =>
    intro e he
    by_cases ha : (validate_element min_elevation max_elevation a).valid
    · rw [show validate_elements min_elevation max_elevation (a :: rest)
          = ⟨a :: (validate_elements min_elevation max_elevation rest).valid,
              (validate_elements min_elevation max_elevation rest).invalid⟩ by
        simp [validate_elements, ha]] at he
      rcases List.mem_cons.mp he with h | h
      · exact h ▸ ha
      · exact ih e h
    · rw [show validate_elements min_elevation max_elevation (a :: rest)
          = ⟨(validate_elements min_elevation max_elevation rest).valid,
              (a, validate_element min_elevation max_elevation a) ::
                (validate_elements min_elevation max_elevation rest).invalid⟩ by
        simp [validate_elements, ha]] at he
      exact ih e he

theorem validate_elements_of_all_valid (min_elevation max_elevation : ℚ) :
    ∀ es : List Element,
      (∀ e ∈ es, (validate_element min_elevation max_elevation e).valid = true) →
      validate_elements min_elevation max_elevation es = ⟨es, []⟩ := by
  intro es
  induction es with
  | nil => intro _; rfl
  | cons a rest ih =>
    intro h
    have ha := h a (List.mem_cons_self a rest)
    have hr := ih (fun e he => h e (List.mem_cons_of_mem a he))
    simp [validate_elements, ha, hr]

/-- C8: validation is idempotent on its valid partition — re-running
`validate_elements` with the same bounds on the `valid` list produced by a
previous run classifies every element valid again, reproducing the same
valid list and an empty invalid list. -/
theorem c8_validate_idempotent (min_elevation max_elevation : ℚ)
    (es : List Element) :
    validate_elements min_elevation max_elevation
        (validate_elements min_elevation max_elevation es).valid
      = ⟨(validate_elements min_elevation max_elevation es).valid, []⟩ :=
  validate_elements_of_all_valid min_elevation max_elevation _
    (fun e he => mem_valid_of_validate min_elevation max_elevation es e he)

/-- C4: `validate_element` declares an element with no `fetched_elevation`
invalid with the single reason "No elevation data"; a present value strictly
below the minimum invalid with the single below-minimum reason carrying the
value and the bound; a value strictly above the maximum (the bounds being in
order, mirroring the code's below-check-first `elif`) invalid with the single
above-maximum reason; and any value between the bounds inclusively — in
particular a value equal to either bound — valid with no reasons.  A valid
outcome never carries reasons, and at most one reason ever applies. -/
theorem c4_validate_element (min_elevation max_elevation : ℚ) (e : Element) :
    (e.elevation_fetched = none →
      validate_element min_elevation max_elevation e
        = ⟨false, e.id, e.type, none, ["No elevation data"]⟩)
    ∧ (∀ v : ℚ, e.elevation_fetched = some v → v < min_elevation →
        validate_element min_elevation max_elevation e
          = ⟨false, e.id, e.type, some v,
              ["Elevation " ++ numStr v ++ "m below minimum " ++
                numStr min_elevation ++ "m"]⟩)
    ∧ (∀ v : ℚ, e.elevation_fetched = some v →
        min_elevation ≤ max_elevation → max_elevation < v →
        validate_element min_elevation max_elevation e
          = ⟨false, e.id, e.type, some v,
              ["Elevation " ++ numStr v ++ "m above maximum " ++
                numStr max_elevation ++ "m"]⟩)
    ∧ (∀ v : ℚ, e.elevation_fetched = some v →
        min_elevation ≤ v → v ≤ max_elevation →
        validate_element min_elevation max_elevation e
          = ⟨true, e.id, e.type, some v, []⟩)
    ∧ ((validate_element min_elevation max_elevation e).valid = true →
        (validate_element min_elevation max_elevation e).errors = [])
    ∧ (validate_element min_elevation max_elevation e).errors.length ≤ 1 := by
  refine ⟨?_, ?_, ?_, ?_, ?_, ?_⟩
  · intro h; simp [validate_element, h]
  · intro v hv hlt; simp [validate_element, hv, hlt]
  · intro v hv hord hgt
    have h1 : ¬v < min_elevation := not_lt.mpr (le_trans hord (le_of_lt hgt))
    simp [validate_element, hv, h1, hgt]
  · intro v hv h1 h2
    simp [validate_element, hv, not_lt.mpr h1, not_lt.mpr h2]
  · cases hf : e.elevation_fetched with
    | none => simp [validate_element, hf]
    | some v =>
      by_cases h1 : v < min_elevation
      · simp [validate_element, hf, h1]
      · by_cases h2 : max_elevation < v <;> simp [validate_element, hf, h1, h2]
  · cases hf : e.elevation_fetched with
    | none => simp [validate_element, hf]
    | some v =>
      by_cases h1 : v < min_elevation
      · simp [validate_element, hf, h1]
      · by_cases h2 : max_elevation < v <;> simp [validate_element, hf, h1, h2]

/-- Witness for C4: with the default bounds (0, 2600), an element whose
fetched elevation is 850.3 is classified valid with no reasons. -/
theorem c4_witness :
    validate_element 0 2600
        { type := "node", id := some 7, lat := none, lon := none, center := none,
          tags := none, elevation_fetched := some (8503/10) }
      = ⟨true, some 7, "node", some (8503/10), []⟩ :=
  (c4_validate_element 0 2600
      { type := "node", id := some 7, lat := none, lon := none, center := none,
        tags := none, elevation_fetched := some (8503/10) }).2.2.2.1
    (8503/10) rfl (by norm_num) (by norm_num)

/-- C3: on an element whose coordinate does not resolve, `enrich_element`
returns none and issues no lookup; on an element whose coordinate resolves to
(la, lo) it issues exactly the one lookup call (la, lo), and — when the
provider returns v — produces the element with `tags.ele` set to v rounded to
one decimal rendered as a string, `tags.ele:source` set to "SRTM" and
`elevation_fetched` set to the raw v, while — when the lookup fails or
returns none — it returns the very same element unchanged. -/
theorem c3_enrich_element (lookup : ℚ → ℚ → Option ℚ) (e : Element) :
    (enrich_coords e = none → enrich_element_run lookup e = (none, []))
    ∧ ∀ la lo : ℚ, enrich_coords e = some (la, lo) →
        enrich_calls lookup e = [(la, lo)]
        ∧ (∀ v : ℚ, lookup la lo = some v →
            enrich_element lookup e
              = some { e with
                  tags := some (dictSet "ele:source" "SRTM"
                    (dictSet "ele" (eleStr v) (e.tags.getD []))),
                  elevation_fetched := some v }
            ∧ dictGet "ele" (dictSet "ele:source" "SRTM"
                (dictSet "ele" (eleStr v) (e.tags.getD []))) = some (eleStr v)
            ∧ dictGet "ele:source" (dictSet "ele:source" "SRTM"
                (dictSet "ele" (eleStr v) (e.tags.getD []))) = some "SRTM")
        ∧ (lookup la lo = none → enrich_element lookup e = some e) := by
  constructor
  · intro h
    simp [enrich_element_run, h]
  · intro la lo h
    refine ⟨?_, ?_, ?_⟩
    · cases hl : lookup la lo <;>
        simp [enrich_calls, enrich_element_run, h, hl]
    · intro v hv
      refine ⟨?_, ?_, ?_⟩
      · simp [enrich_element, enrich_element_run, h, hv]
      · rw [dictGet_dictSet_of_ne _ _ _ _ (by decide), dictGet_dictSet_self]
      · rw [dictGet_dictSet_self]
    · intro hv
      simp [enrich_element, enrich_element_run, h, hv]

/-- Witness for C3: a node at (45, 25) with a provider returning 850.3 is
enriched with `ele = "850.3"`, `ele:source = "SRTM"` and raw fetched
elevation 850.3, and exactly one lookup call is issued. -/
theorem c3_witness :
    enrich_calls (fun _ _ => some (8503/10))
        { type := "node", id := some 1, lat := some 45, lon := some 25,
          center := none, tags := some [("railway", "station")],
          elevation_fetched := none }
      = [(45, 25)]
    ∧ enrich_element (fun _ _ => some (8503/10))
        { type := "node", id := some 1, lat := some 45, lon := some 25,
          center := none, tags := some [("railway", "station")],
          elevation_fetched := none }
      = some { type := "node", id := some 1, lat := some 45,
               lon := some 25, center := none,
               tags := some [("railway", "station"), ("ele", "850.3"),
                 ("ele:source", "SRTM")],
               elevation_fetched := some (8503/10) } := by
  have hstr : eleStr (8503/10) = "850.3" := by
    norm_num [eleStr, roundHalfEven]; rfl
  have h := (c3_enrich_element (fun _ _ => some (8503/10))
      { type := "node", id := some 1, lat := some 45, lon := some 25,
        center := none, tags := some [("railway", "station")],
        elevation_fetched := none }).2 45 25 rfl
  refine ⟨h.1, ((h.2.1 (8503/10) rfl).1).trans ?_⟩
  rw [hstr]; rfl

theorem enrich_loop_none_limit (lookup : ℚ → ℚ → Option ℚ) :
    ∀ (es : List Element) (count : Int),
      enrich_loop lookup none es count = es.filterMap (enrich_element lookup) := by
  intro es
  induction es with
  | nil => intro count; rfl
  | cons e rest ih =>
    intro count
    show (if break_cond none count then [] else _) = _
    cases hf : enrich_element lookup e <;>
      simp [break_cond, hf, List.filterMap_cons, ih]

theorem enrich_loop_stopped (lookup : ℚ → ℚ → Option ℚ) (k : Int) (hk : k ≠ 0) :
    ∀ (es : List Element) (count : Int), k ≤ count →
      enrich_loop lookup (some k) es count = [] := by
  intro es count hle
  cases es with
  | nil => rfl
  | cons e rest =>
    show (if break_cond (some k) count then [] else _) = _
    simp [break_cond, hk, hle]

theorem enrich_loop_take (lookup : ℚ → ℚ → Option ℚ) (k : Int) (hk : 0 < k) :
    ∀ (es : List Element) (count : Int),
      enrich_loop lookup (some k) es count
        = (es.filterMap (enrich_element lookup)).take (k - count).toNat := by
  intro es
  induction es with
  | nil => intro count; simp [enrich_loop]
  | cons e rest ih =>
    intro count
    by_cases hbr : k ≤ count
    · rw [enrich_loop_stopped lookup k (by omega) (e :: rest) count hbr]
      have : (k - count).toNat = 0 := by omega
      simp [this]
    · have hcond : break_cond (some k) count = false := by
        simp [break_cond]; omega
      show (if break_cond (some k) count then [] else _) = _
      rw [hcond]
      simp only [if_neg Bool.false_ne_true]
      cases hf : enrich_element lookup e with
      | none => simp [hf, List.filterMap_cons, ih count]
      | some r =>
        have hsucc : (k - count).toNat = (k - (count + 1)).toNat + 1 := by omega
        simp [hf, List.filterMap_cons, ih (count + 1), hsucc]

/-- C5 (amended): `enrich_elements` processes elements in input order; each
processed element with a resolvable coordinate contributes exactly one output
(mutated on lookup success, passed through unchanged on lookup failure) and
counts toward the limit, while an element with no resolvable coordinate is
skipped — it yields no output and does not count; with a positive `max_count`
the output is exactly the first `max_count` of the per-element outputs, and
with no `max_count` every element is processed. -/
theorem c5_enrich_elements_limit (lookup : ℚ → ℚ → Option ℚ)
    (es : List Element) (k : Int) :
    (0 < k → enrich_elements lookup es (some k)
        = (es.filterMap (enrich_element lookup)).take k.toNat)
    ∧ enrich_elements lookup es none = es.filterMap (enrich_element lookup) := by
  constructor
  · intro hk
    have h := enrich_loop_take lookup k hk es 0
    simpa [enrich_elements] using h
  · exact enrich_loop_none_limit lookup es 0

/-- Counterexample for C5: a relation element has no resolvable coordinate,
so `enrich_element` returns none and the element is processed without
yielding any output — refuting "every input element processed yields exactly
one output element" (here one element is processed with no limit set, yet the
output is empty). -/
theorem c5_counterexample :
    (enrich_elements (fun _ _ => some 100)
        [{ type := "relation", id := some 9, lat := none, lon := none,
           center := none, tags := none, elevation_fetched := none }] none).length = 0
    ∧ (([{ type := "relation", id := some 9, lat := none, lon := none,
           center := none, tags := none, elevation_fetched := none }] :
          List Element).length = 1) := ⟨rfl, rfl⟩

/-- Witness for C5: with a provider that always fails (pass-through outputs)
and three coordinate-bearing nodes, `max_count = 2` yields exactly the first
two elements unchanged. -/
theorem c5_witness :
    enrich_elements (fun _ _ => none)
        [{ type := "node", id := some 1, lat := some 45, lon := some 25,
           center := none, tags := none, elevation_fetched := none },
         { type := "node", id := some 2, lat := some 46, lon := some 26,
           center := none, tags := none, elevation_fetched := none },
         { type := "node", id := some 3, lat := some 47, lon := some 27,
           center := none, tags := none, elevation_fetched := none }] (some 2)
      = [{ type := "node", id := some 1, lat := some 45, lon := some 25,
           center := none, tags := none, elevation_fetched := none },
         { type := "node", id := some 2, lat := some 46, lon := some 26,
           center := none, tags := none, elevation_fetched := none }] :=
  ((c5_enrich_elements_limit (fun _ _ => none)
      [{ type := "node", id := some 1, lat := some 45, lon := some 25,
         center := none, tags := none, elevation_fetched := none },
       { type := "node", id := some 2, lat := some 46, lon := some 26,
         center := none, tags := none, elevation_fetched := none },
       { type := "node", id := some 3, lat := some 47, lon := some 27,
         center := none, tags := none, elevation_fetched := none }] 2).1
    (by norm_num)).trans rfl

/-- C10: a `max_count` of 0 is Python-falsy, so the
`if max_count and count >= max_count` guard never fires and `enrich_elements`
behaves exactly as with no limit at all. -/
theorem c10_zero_limit_means_no_limit (lookup : ℚ → ℚ → Option ℚ)
    (es : List Element) :
    enrich_elements lookup es (some 0) = enrich_elements lookup es none := by
  have h : ∀ (l : List Element) (count : Int),
      enrich_loop lookup (some 0) l count = enrich_loop lookup none l count := by
    intro l
    induction l with
    | nil => intro count; rfl
    | cons e rest ih =>
      intro count
      show (if break_cond (some 0) count then [] else _)
        = (if break_cond none count then [] else _)
      cases hf : enrich_element lookup e <;> simp [break_cond, hf, ih]
  exact h es 0

/-- C2 (amended): `upload_element` returns an immediate failure with no store
interaction whenever the element's id or type is Python-falsy — absent, id 0,
or empty type string — or whenever `tags.ele` or `tags.ele:source` is absent,
in dry-run and live mode alike; and in dry-run mode an element carrying a
truthy (non-`None`, non-zero) id, a truthy (non-empty) type and both tags
always yields `(True, "Dry-run successful")` with zero store calls. -/
theorem c2_upload_element_preconditions (u : OSMUploader) (api : OsmApi)
    (e : Element) (changeset_comment : String) :
    ((e.id = none ∨ e.id = some 0 ∨ e.type = "") →
      upload_element u api e changeset_comment
        = ((false, "Missing element ID or type"), []))
    ∧ ((e.id ≠ none ∧ e.id ≠ some 0 ∧ e.type ≠ "") →
        (dictGet "ele" (e.tags.getD []) = none
          ∨ dictGet "ele:source" (e.tags.getD []) = none) →
        upload_element u api e changeset_comment
          = ((false, "Missing elevation data in tags"), []))
    ∧ (u.dry_run = true →
        (e.id ≠ none ∧ e.id ≠ some 0 ∧ e.type ≠ "") →
        dictGet "ele" (e.tags.getD []) ≠ none →
        dictGet "ele:source" (e.tags.getD []) ≠ none →
        upload_element u api e changeset_comment
          = ((true, "Dry-run successful"), [])) := by
  have hfalsy : ∀ h : e.id = none ∨ e.id = some 0 ∨ e.type = "",
      (falsyId e.id || e.type = "") = true := by
    intro h
    rcases h with h | h | h <;> simp [falsyId, h]
  have htruthy : (e.id ≠ none ∧ e.id ≠ some 0 ∧ e.type ≠ "") →
      (falsyId e.id || e.type = "") = false := by
    intro h
    cases hid : e.id with
    | none => exact absurd hid h.1
    | some n =>
      have hn : n ≠ 0 := by
        intro h0; exact h.2.1 (by rw [hid, h0])
      simp [falsyId, hn, h.2.2]
  refine ⟨?_, ?_, ?_⟩
  · intro h
    simp [upload_element, hfalsy h]
  · intro h hmiss
    have h1 := htruthy h
    rcases hmiss with hm | hm <;>
      simp [upload_element, h1, dictHas, Option.isSome_iff_ne_none, hm]
  · intro hdry h h1 h2
    simp [upload_element, htruthy h, hdry, dictHas,
      Option.isSome_iff_ne_none, h1, h2]

/-- Counterexample for C2 as stated: an element that carries its id (0), its
kind ("node") and both `tags.ele` and `tags.ele:source` nevertheless fails
`upload_element` in dry-run mode — Python truthiness treats id 0 as missing —
instead of yielding the promised `(True, "Dry-run successful")`. -/
theorem c2_counterexample :
    (({ type := "node", id := some 0, lat := none, lon := none, center := none,
        tags := some [("ele", "850.3"), ("ele:source", "SRTM")],
        elevation_fetched := none } : Element).id).isSome = true
    ∧ ({ type := "node", id := some 0, lat := none, lon := none, center := none,
         tags := some [("ele", "850.3"), ("ele:source", "SRTM")],
         elevation_fetched := none } : Element).type = "node"
    ∧ dictHas "ele" [("ele", "850.3"), ("ele:source", "SRTM")] = true
    ∧ dictHas "ele:source" [("ele", "850.3"), ("ele:source", "SRTM")] = true
    ∧ upload_element ⟨true, none, none⟩
        ⟨fun _ => Except.error "offline", fun _ => Except.error "offline",
         fun _ => Except.error "offline", fun _ => Except.error "offline",
         fun _ => Except.error "offline", fun _ => Except.error "offline"⟩
        { type := "node", id := some 0, lat := none, lon := none, center := none,
          tags := some [("ele", "850.3"), ("ele:source", "SRTM")],
          elevation_fetched := none }
        "Add elevation data"
        = ((false, "Missing element ID or type"), []) :=
  ⟨rfl, rfl, rfl, rfl, rfl⟩

/-- Witness for C2 (amended): a dry-run upload of a fully tagged element with
truthy id and type succeeds with the dry-run message and no store call. -/
theorem c2_witness :
    upload_element ⟨true, none, none⟩
        ⟨fun _ => Except.error "offline", fun _ => Except.error "offline",
         fun _ => Except.error "offline", fun _ => Except.error "offline",
         fun _ => Except.error "offline", fun _ => Except.error "offline"⟩
        { type := "node", id := some 5, lat := none, lon := none, center := none,
          tags := some [("ele", "850.3"), ("ele:source", "SRTM")],
          elevation_fetched := none }
        "Add elevation data"
      = ((true, "Dry-run successful"), []) :=
  (c2_upload_element_preconditions ⟨true, none, none⟩
      ⟨fun _ => Except.error "offline", fun _ => Except.error "offline",
       fun _ => Except.error "offline", fun _ => Except.error "offline",
       fun _ => Except.error "offline", fun _ => Except.error "offline"⟩
      { type := "node", id := some 5, lat := none, lon := none, center := none,
        tags := some [("ele", "850.3"), ("ele:source", "SRTM")],
        elevation_fetched := none }
      "Add elevation data").2.2 rfl
    (by refine ⟨?_, ?_, ?_⟩ <;> decide) (by decide) (by decide)

theorem upload_loop_spec (u : OSMUploader) (api : OsmApi) :
    ∀ (es : List Element) (stats : UploadStats),
      upload_loop u api es stats
        = ⟨stats.total,
           stats.successful
             + (es.filter (fun e =>
                 (upload_element u api e "Add elevation data").1.1)).length,
           stats.failed
             + (es.filter (fun e =>
                 !(upload_element u api e "Add elevation data").1.1)).length,
           stats.errors
             ++ (es.filter (fun e =>
                  !(upload_element u api e "Add elevation data").1.1)).map
                 (fun e => (e.id, (upload_element u api e "Add elevation data").1.2))⟩ := by
  intro es
  induction es with
  | nil => intro stats; simp [upload_loop]
  | cons e rest ih =>
    intro stats
    by_cases h : (upload_element u api e "Add elevation data").1.1 <;>
      simp [upload_loop, h, ih, List.filter_cons] <;> omega

/-- C9: the statistics returned by `upload_elements` satisfy
`total = length of the input`, `total = successful + failed`, and the errors
list is exactly the failed elements, in order, each contributing the one
entry `(element id, failure message)`. -/
theorem c9_upload_stats (u : OSMUploader) (api : OsmApi) (es : List Element) :
    (upload_elements u api es).total = es.length
    ∧ (upload_elements u api es).total
        = (upload_elements u api es).successful + (upload_elements u api es).failed
    ∧ (upload_elements u api es).errors
        = (es.filter (fun e =>
            !(upload_element u api e "Add elevation data").1.1)).map
           (fun e => (e.id, (upload_element u api e "Add elevation data").1.2))
    ∧ (upload_elements u api es).errors.length = (upload_elements u api es).failed := by
  have h := upload_loop_spec u api es ⟨es.length, 0, 0, []⟩
  have hsplit := length_filter_split
    (fun e => (upload_element u api e "Add elevation data").1.1) es
  refine ⟨?_, ?_, ?_, ?_⟩ <;> simp [upload_elements, h]
  omega

/-- C1 (code bug): `main()` computes
`dry_run = args.dry_run if args.dry_run else True`, which is `True` for every
argument combination, so the `--upload` branch always proceeds in dry-run
mode: the configuration-error path is dead and a live upload is unreachable
from the command line, contrary to the code's own comment
("Default to dry-run unless explicitly disabled") and to the spec.  The
second conjunct shows the `OSMUploader` constructor itself does behave as
specified: in live mode it fails with the configuration error exactly when
the username or the password is missing (Python-falsy). -/
theorem c1_upload_gate (a : CliArgs) (username password : Option String) :
    (main_upload_decision a = UploadDecision.run true a.username a.password
      ∧ main_upload_decision a ≠ UploadDecision.configError)
    ∧ mkOSMUploader username password false
        = (if falsyStr username || falsyStr password then
             Except.error "Username and password required for actual upload"
           else Except.ok ⟨false, username, password⟩) := by
  have hdry : (if a.dry_run then a.dry_run else true) = true := by
    cases h : a.dry_run <;> simp [h]
  constructor
  · constructor
    · simp [main_upload_decision, hdry]
    · simp [main_upload_decision, hdry]
  · simp [mkOSMUploader]
